import Mathlib

/-!
Shallow embedding of the AppBack dashboard's asset validation and material
lifecycle engine (src/dashboard/services.py, views.py, models.py,
constants.py), together with theorems settling the spec claims about it.

Machine-level conventions of the embedding:
* bytes are `List Nat` (each entry one byte);
* Python dict/JSON fields that may be absent are `Option`;
* Python truthiness of ints and bools is made explicit (`natTruthy`,
  `boolTruthy`);
* the two external decoders applied to an upload (UTF-8 decode with
  errors ignored, which is total, and PIL image decoding, which may fail)
  are carried as fields of the `FileContent` record;
* Django rows are Lean structures, the database is a `DBState` of row
  lists, and raising an exception is returning `Except.error` without
  touching the state.
-/

namespace AppBack

/-- Boolean test that the first list is an initial segment of the second. -/
def beginsWith [BEq α] : List α → List α → Bool
  | [], _ => true
  | _ :: _, [] => false
  | a :: ps, b :: ss => a == b && beginsWith ps ss

/-- Boolean test that the first list occurs as a contiguous run inside the
second; models the Python `in` operator on `str`/`bytes`. -/
def containsSeq [BEq α] (pat : List α) : List α → Bool
  | [] => pat.isEmpty
  | b :: ss => beginsWith pat (b :: ss) || containsSeq pat ss

/-- Models Python `str.lower()` (the markers the validator compares against
are all ASCII, which `Char.toLower` covers). -/
def strLower (s : String) : String := ⟨s.data.map Char.toLower⟩

/-- Models the Python substring test `pat in s`. -/
def strContains (pat s : String) : Bool := containsSeq pat.data s.data

/-- Models byte-level `bytes.startswith(pat)`. -/
def bytesStart (pat content : List Nat) : Bool := beginsWith pat content

/-- Python truthiness of an optional integer (`None` and `0` are falsy). -/
def natTruthy : Option Nat → Bool
  | none => false
  | some n => n != 0

/-- Python truthiness of `specs.get(key, False)` for a boolean field. -/
def boolTruthy : Option Bool → Bool
  | none => false
  | some b => b

/-- One platform/asset specification dict, as stored in
`constants.PLATFORM_SPECS` or in `PlatformSpec.specifications`. A missing
JSON key is `none` (respectively `[]` for the format list). -/
structure Specs where
  width : Option Nat := none
  height : Option Nat := none
  formats : List String := []
  transparent_bg : Option Bool := none
  max_size_mb : Option Nat := none
  margin_recommended_px : Option Nat := none
deriving DecidableEq

/-- The compiled default spec table, translated entry by entry from
`constants.PLATFORM_SPECS`. -/
def PLATFORM_SPECS : List (String × List (String × Specs)) := [
  ("web_brand", [
    ("logo",
      { width := some 482, height := some 108, formats := ["PNG"],
        transparent_bg := some true, max_size_mb := some 10 }),
    ("logo_top",
      { width := some 400, height := some 377, formats := ["PNG"],
        transparent_bg := some true, max_size_mb := some 10 }),
    ("placeholder",
      { width := some 220, height := some 160, formats := ["PNG"],
        max_size_mb := some 10 }),
    ("background",
      { width := some 3480, height := some 2160, formats := ["PNG"],
        max_size_mb := some 10 }),
    ("splash",
      { width := some 3480, height := some 2160, formats := ["PNG"],
        max_size_mb := some 10 })]),
  ("samsung_tizen", [
    ("launcher_icon",
      { width := some 400, height := some 400, formats := ["PNG"],
        margin_recommended_px := some 50, max_size_mb := some 10 }),
    ("splash",
      { width := some 3840, height := some 2160, formats := ["PNG"],
        max_size_mb := some 10 })]),
  ("lg_webos", [
    ("icon_80",
      { width := some 80, height := some 80, formats := ["PNG"],
        margin_recommended_px := some 25, max_size_mb := some 10 }),
    ("large_icon",
      { width := some 130, height := some 130, formats := ["PNG"],
        max_size_mb := some 10 }),
    ("background",
      { width := some 1920, height := some 1080, formats := ["PNG"],
        max_size_mb := some 10 }),
    ("splash",
      { width := some 1920, height := some 1080, formats := ["PNG"],
        max_size_mb := some 10 })]),
  ("android_google_play", [
    ("default_logo_services",
      { width := some 430, height := some 314, formats := ["PNG"],
        max_size_mb := some 10 }),
    ("default_logo_vod",
      { width := some 300, height := some 440, formats := ["PNG"],
        max_size_mb := some 10 }),
    ("logo_home",
      { width := some 1200, height := some 472, formats := ["PNG"],
        transparent_bg := some true, max_size_mb := some 10 }),
    ("logo_watermark",
      { width := some 1200, height := some 472, formats := ["PNG"],
        max_size_mb := some 10 }),
    ("background",
      { width := some 1920, height := some 1080, formats := ["PNG"],
        max_size_mb := some 10 }),
    ("background_mobile",
      { width := some 1080, height := some 1920, formats := ["PNG"],
        max_size_mb := some 10 }),
    ("logo_splash",
      { width := some 1000, height := some 1000, formats := ["PNG"],
        max_size_mb := some 10 }),
    ("radio_background",
      { width := some 1920, height := some 1080, formats := ["PNG"],
        max_size_mb := some 10 }),
    ("play_feature_graphic",
      { width := some 1024, height := some 500, formats := ["PNG"],
        max_size_mb := some 10 }),
    ("play_banner_tv",
      { width := some 1280, height := some 720, formats := ["PNG"],
        max_size_mb := some 10 })]),
  ("amazon_appstore", [
    ("app_icon",
      { width := some 1280, height := some 720, formats := ["PNG"],
        max_size_mb := some 10 }),
    ("background",
      { width := some 1920, height := some 1080, formats := ["PNG"],
        max_size_mb := some 10 })]),
  ("ios_tvos_app_store", [
    ("store_logo",
      { width := some 1920, height := some 1080, formats := ["SVG"],
        transparent_bg := some true, max_size_mb := some 10 }),
    ("logo_top",
      { width := some 400, height := some 377, formats := ["SVG"],
        max_size_mb := some 10 }),
    ("background_mobile",
      { width := some 4688, height := some 10150, formats := ["SVG"],
        max_size_mb := some 10 }),
    ("background",
      { width := some 3480, height := some 2160, formats := ["SVG"],
        max_size_mb := some 10 })])]

/-- Lookup in the compiled default table:
`PLATFORM_SPECS.get(platform, {}).get(asset_key)`. -/
def platformSpecsLookup (platform asset_key : String) : Option Specs :=
  match PLATFORM_SPECS.find? (fun p => p.1 == platform) with
  | none => none
  | some (_, assets) => (assets.find? (fun a => a.1 == asset_key)).map (fun a => a.2)

/-- One row of the `PlatformSpec` model (the mutable override store). -/
structure DbSpecRow where
  platform : String
  asset_key : String
  specifications : Specs
  is_active : Bool
deriving DecidableEq

/-- Models `ImageValidator._get_platform_specs`: an active database row
first, else the compiled default table. -/
def getPlatformSpecs (db : List DbSpecRow) (platform asset_key : String) : Option Specs :=
  match db.find? (fun r => r.platform == platform && r.asset_key == asset_key && r.is_active) with
  | some r => some r.specifications
  | none => platformSpecsLookup platform asset_key

/-- Typed rejection reasons of the validator. Each constructor models one
`ImageValidationError` raise site of `ImageValidator`, carrying the
structured values its message interpolates. (The `UnicodeDecodeError`
handler of `_validate_svg` is dead code because the decode uses
`errors='ignore'`, so it has no constructor here.) -/
inductive VErr where
  | specNotFound (platform asset_key : String)
  | formatNotAllowed (fmt : String) (allowed : List String)
  | tooLarge (size maxBytes : Nat)
  | widthMismatch (actual expected : Nat)
  | heightMismatch (actual expected : Nat)
  | transparencyRequired
  | transparencyForbidden
  | corrupt
  | svgInvalid
  | svgMissingDimensions
  | svgUnsafeElement (element : String)
  | processingError
deriving DecidableEq

/-- Structured content of the advisory margin warning emitted by
`_validate_raster_image` (margin and the margin-trimmed effective area,
which Python computes with signed ints). -/
structure MarginWarning where
  margin_px : Nat
  effective_width : Int
  effective_height : Int
deriving DecidableEq

/-- The success dict returned by `validate_image`. -/
structure ValidationResult where
  valid : Bool
  format : String
  mime_type : String
  file_size : Nat
  width : Option Nat
  height : Option Nat
  has_transparency : Bool
  warnings : List MarginWarning
deriving DecidableEq

/-- The observable outcome of `PIL.Image.open` on the upload: size, mode,
the minimum of the alpha channel (`alpha.getextrema()[0]`, meaningful for
the RGBA/LA modes) and whether `image.verify()` succeeds. -/
structure RasterImage where
  width : Nat
  height : Nat
  mode : String
  alphaMin : Nat
  verifyOk : Bool
deriving DecidableEq

/-- An uploaded file: its raw bytes together with the results of the two
external decoders the validator applies to them. `text` is
`file_content.decode('utf-8', errors='ignore')` (total, never raises);
`image` is the PIL decode, `none` when `Image.open` raises. -/
structure FileContent where
  bytes : List Nat
  text : String
  image : Option RasterImage
deriving DecidableEq

/-- Models `ImageValidator._get_mime_type`: magic-byte detection with an
`application/octet-stream` fallback. -/
def getMimeType (bytes : List Nat) : String :=
  if bytesStart [0x89, 0x50, 0x4E, 0x47] bytes then "image/png"
  else if bytesStart [0xFF, 0xD8, 0xFF] bytes then "image/jpeg"
  else if bytesStart [0x3C, 0x73, 0x76, 0x67] bytes || bytesStart [0x3C, 0x3F, 0x78, 0x6D, 0x6C] bytes then
    "image/svg+xml"
  else "application/octet-stream"

/-- Models `ImageValidator._extract_format_from_mime`. -/
def extractFormatFromMime (mime : String) : String :=
  if mime == "image/png" then "PNG"
  else if mime == "image/jpeg" then "JPG"
  else if mime == "image/jpg" then "JPG"
  else if mime == "image/svg+xml" then "SVG"
  else "UNKNOWN"

/-- Models `ImageValidator._check_transparency`: an RGBA/LA image has
transparency exactly when the minimum alpha value is below 255. -/
def checkTransparency (img : RasterImage) : Bool :=
  if img.mode == "RGBA" || img.mode == "LA" then
    decide (img.alphaMin < 255)
  else false

/-- The active-content markers `_validate_svg` rejects. -/
def problematicElements : List String := ["<script", "<iframe", "<object", "<embed"]

/-- The text-marker transparency heuristic of `_validate_svg`, applied to
the lowered decoded text. -/
def svgHasTransparency (svg_content : String) : Bool :=
  let lower := strLower svg_content
  strContains "transparent" lower || strContains "rgba" lower ||
  strContains "fill=\"none\"" lower || strContains "fill:none" lower

/-- Models `ImageValidator._validate_svg` on the decoded text. -/
def validateSvg (svg_content : String) (specs : Specs) (mime_type : String)
    (file_size : Nat) : Except VErr ValidationResult :=
  let lower := strLower svg_content
  if !(strContains "<svg" lower && strContains "</svg>" lower) then
    .error .svgInvalid
  else if !strContains "viewbox" lower && !strContains "width" lower then
    .error .svgMissingDimensions
  else
    let has_transparency := svgHasTransparency svg_content
    if boolTruthy specs.transparent_bg && !has_transparency then
      .error .transparencyRequired
    else if !boolTruthy specs.transparent_bg && has_transparency then
      .error .transparencyForbidden
    else
      match problematicElements.find? (fun e => strContains e lower) with
      | some e => .error (.svgUnsafeElement e)
      | none =>
        .ok { valid := true, format := "SVG", mime_type := mime_type,
              file_size := file_size, width := none, height := none,
              has_transparency := has_transparency, warnings := [] }

/-- Models `ImageValidator._validate_raster_image` on the PIL decode. -/
def validateRasterImage (image : Option RasterImage) (specs : Specs)
    (mime_type : String) (file_size : Nat) : Except VErr ValidationResult :=
  match image with
  | none => .error .processingError
  | some img =>
    if natTruthy specs.width && img.width != specs.width.getD 0 then
      .error (.widthMismatch img.width (specs.width.getD 0))
    else if natTruthy specs.height && img.height != specs.height.getD 0 then
      .error (.heightMismatch img.height (specs.height.getD 0))
    else
      let has_transparency := checkTransparency img
      if boolTruthy specs.transparent_bg && !has_transparency then
        .error .transparencyRequired
      else if !boolTruthy specs.transparent_bg && has_transparency then
        .error .transparencyForbidden
      else if !img.verifyOk then
        .error .corrupt
      else
        let warnings :=
          match specs.margin_recommended_px with
          | some m =>
            if m != 0 then
              [{ margin_px := m,
                 effective_width := (img.width : Int) - (m : Int) * 2,
                 effective_height := (img.height : Int) - (m : Int) * 2 }]
            else []
          | none => []
        .ok { valid := true, format := extractFormatFromMime mime_type,
              mime_type := mime_type, file_size := file_size,
              width := some img.width, height := some img.height,
              has_transparency := has_transparency, warnings := warnings }

/-- Models `ImageValidator.validate_image`: spec resolution, format
membership, size ceiling, then the format-specific body. `resolve` is the
spec resolution environment (`_get_platform_specs`, i.e.
`getPlatformSpecs db` for a database state `db`). -/
def validateImage (resolve : String → String → Option Specs)
    (content : FileContent) (platform asset_key : String) :
    Except VErr ValidationResult :=
  match resolve platform asset_key with
  | none => .error (.specNotFound platform asset_key)
  | some specs =>
    let mime_type := getMimeType content.bytes
    let file_format := extractFormatFromMime mime_type
    if !specs.formats.contains file_format then
      .error (.formatNotAllowed file_format specs.formats)
    else
      let file_size := content.bytes.length
      let max_size_bytes := specs.max_size_mb.getD 10 * 1024 * 1024
      if file_size > max_size_bytes then
        .error (.tooLarge file_size max_size_bytes)
      else if file_format == "SVG" then
        validateSvg content.text specs mime_type file_size
      else
        validateRasterImage content.image specs mime_type file_size

/-- Whether a validation outcome is a success (no exception raised). -/
def isAccepted (r : Except VErr ValidationResult) : Bool :=
  match r with
  | .ok _ => true
  | .error _ => false

/-- A user row: the primary key and the single-valued `role` field
(`admin`, `reviewer` or `client`). -/
structure UserRec where
  id : Nat
  role : String
deriving DecidableEq

/-- A `Project` row, with the fields the claims touch; reviewers are the
ids of the `assigned_reviewers` many-to-many set, the deadline is an
abstract instant (`none` models a null deadline). -/
structure ProjectRec where
  id : Nat
  status : String
  deadline : Option Nat
  created_by : Nat
  assigned_reviewers : List Nat
deriving DecidableEq

/-- A `Material` row (domain columns; the `created_at`/`updated_at`
bookkeeping timestamps are not modelled). -/
structure MaterialRec where
  id : Nat
  project : Nat
  material_type : String
  platform : String
  asset_key : String
  file_name : String
  file_size : Nat
  file_hash : String
  mime_type : String
  width : Option Nat
  height : Option Nat
  has_transparency : Bool
  status : String
  storage_url : Option String := none
  comments : Option String := none
  uploaded_by : Nat
deriving DecidableEq

/-- A `MaterialVersion` row. -/
structure VersionRec where
  id : Nat
  material : Nat
  version_number : Nat
  file_name : String
  file_size : Nat
  file_hash : String
  mime_type : String
  width : Option Nat
  height : Option Nat
  has_transparency : Bool
  storage_url : Option String := none
  change_description : Option String := none
  created_by : Nat
deriving DecidableEq

/-- Structured content of the JSON payloads `AuditService.log_action`
receives at its three call sites relevant here. -/
inductive AuditPayload where
  | upload (platform asset_key : String) (file_size : Nat)
      (validation_warnings : List MarginWarning) (validation_status : String)
  | statusUpdate (old_status new_status comments : String)
  | rollback (version_id version_number : Nat)
deriving DecidableEq

/-- An `AuditLog` row (the request-derived ip/user-agent columns are
transport data and not modelled). -/
structure AuditRec where
  id : Nat
  action : String
  actor : Nat
  entity_type : String
  entity_id : Nat
  payload : Option AuditPayload
deriving DecidableEq

/-- The mutable database state the lifecycle operations act on. The
`next_...` counters model the auto-increment primary keys. -/
structure DBState where
  materials : List MaterialRec
  versions : List VersionRec
  audit_logs : List AuditRec
  next_material_id : Nat
  next_audit_id : Nat
deriving DecidableEq

/-- Models `AuditService.log_action`: appends one `AuditLog` row. -/
def logAction (st : DBState) (action : String) (actor : Nat)
    (entity_type : String) (entity_id : Nat) (payload : Option AuditPayload) : DBState :=
  { st with
    audit_logs := st.audit_logs ++
      [{ id := st.next_audit_id, action := action, actor := actor,
         entity_type := entity_type, entity_id := entity_id, payload := payload }],
    next_audit_id := st.next_audit_id + 1 }

/-- Whether some material already occupies the (project, platform,
asset_key) slot; `Material.Meta.unique_together` makes the database
reject a second row for the same slot. -/
def slotTaken (st : DBState) (project : Nat) (platform asset_key : String) : Bool :=
  st.materials.any (fun m =>
    m.project == project && m.platform == platform && m.asset_key == asset_key)

/-- Errors `MaterialService.create_material` can propagate: the validator's
typed rejection, or the database integrity error from violating the
unique slot constraint in `Material.objects.create`. -/
inductive CreateErr where
  | validation (e : VErr)
  | integrityError
deriving DecidableEq

/-- Models `MaterialService.create_material`. `sha256hex` abstracts
`hashlib.sha256(...).hexdigest()`; `resolve` is the spec resolution used by
the validator. Returns the new database state and either the created
material's id or the propagated exception; an exception leaves the state
exactly as it was. -/
def create_material (sha256hex : List Nat → String)
    (resolve : String → String → Option Specs) (st : DBState)
    (project : Nat) (platform asset_key : String) (content : FileContent)
    (file_name : String) (uploaded_by : Nat) : DBState × Except CreateErr Nat :=
  match validateImage resolve content platform asset_key with
  | .error e => (st, .error (.validation e))
  | .ok validation_result =>
    let file_hash := sha256hex content.bytes
    let material_type :=
      if ["PNG", "JPG", "SVG"].contains validation_result.format then "image"
      else "document"
    if slotTaken st project platform asset_key then
      (st, .error .integrityError)
    else
      let mid := st.next_material_id
      let material : MaterialRec :=
        { id := mid, project := project, material_type := material_type,
          platform := platform, asset_key := asset_key, file_name := file_name,
          file_size := content.bytes.length, file_hash := file_hash,
          mime_type := validation_result.mime_type,
          width := validation_result.width, height := validation_result.height,
          has_transparency := validation_result.has_transparency,
          status := "pending", uploaded_by := uploaded_by }
      let st1 := { st with materials := st.materials ++ [material],
                           next_material_id := mid + 1 }
      let st2 := logAction st1 "upload" uploaded_by "Material" mid
        (some (.upload platform asset_key content.bytes.length
          validation_result.warnings "passed"))
      (st2, .ok mid)

/-- Models `MaterialService.update_material_status`: sets the status,
overwrites the comments only when the comments argument is truthy
(non-empty), saves the row and appends one audit entry. -/
def update_material_status (st : DBState) (material : MaterialRec)
    (new_status : String) (user : Nat) (comments : String) : DBState :=
  let old_status := material.status
  let material' :=
    { material with
      status := new_status,
      comments := if comments != "" then some comments else material.comments }
  let st1 :=
    { st with materials := st.materials.map (fun m =>
        if m.id == material.id then material' else m) }
  logAction st1 "update" user "Material" material.id
    (some (.statusUpdate old_status new_status comments))

/-- Models `MaterialViewSet.rollback`: looks up the version by id scoped to
the given material, copies the version's file metadata columns onto the
material, forces the status back to `pending`, and appends one audit entry
carrying the version number; a missing version is a 404 with no mutation. -/
def rollback (st : DBState) (material : MaterialRec) (version_id : Nat)
    (actor : Nat) : DBState × Except Unit Unit :=
  match st.versions.find? (fun v => v.id == version_id && v.material == material.id) with
  | none => (st, .error ())
  | some version =>
    let material' :=
      { material with
        file_name := version.file_name, file_size := version.file_size,
        file_hash := version.file_hash, mime_type := version.mime_type,
        width := version.width, height := version.height,
        has_transparency := version.has_transparency,
        storage_url := version.storage_url,
        status := "pending" }
    let st1 :=
      { st with materials := st.materials.map (fun m =>
          if m.id == material.id then material' else m) }
    let st2 := logAction st1 "update" actor "Material" material.id
      (some (.rollback version_id version.version_number))
    (st2, .ok ())

/-- Models `MaterialViewSet._can_change_status`, a pure function of the
actor's role, the material, the target status and the actor identity. The
first argument is the id set of the material's project's assigned
reviewers. -/
def canChangeStatus (project_assigned_reviewers : List Nat)
    (material : MaterialRec) (new_status : String) (user : UserRec) : Bool :=
  if user.role == "admin" then true
  else if user.role == "reviewer" &&
      (new_status == "approved" || new_status == "needs_correction") then
    project_assigned_reviewers.contains user.id
  else if user.role == "client" then
    new_status == "pending" && material.uploaded_by == user.id
  else false

/-- Models the `Project.is_overdue` property: false without a deadline,
else simply whether the current instant is past the deadline. -/
def is_overdue (now : Nat) (p : ProjectRec) : Bool :=
  match p.deadline with
  | none => false
  | some d => decide (now > d)

/-- Models the overdue-project count of `DashboardStatsView.get`
(`deadline__lt=now, status__in=[DRAFT, IN_PROGRESS]`). -/
def overdueProjectsCount (now : Nat) (projects : List ProjectRec) : Nat :=
  (projects.filter (fun p =>
    (match p.deadline with
     | some d => decide (d < now)
     | none => false) &&
    (p.status == "draft" || p.status == "in_progress"))).length

/-- Whether a `create_material` outcome is a success. -/
def createOk (r : Except CreateErr Nat) : Bool :=
  match r with
  | .ok _ => true
  | .error _ => false

/-! Concrete sample inputs used to exercise the definitions. -/

/-- An empty database. -/
def emptyState : DBState :=
  { materials := [], versions := [], audit_logs := [],
    next_material_id := 1, next_audit_id := 1 }

/-- A byte stream carrying the PNG signature. -/
def pngBytes : List Nat := [0x89, 0x50, 0x4E, 0x47]

/-- A byte stream no magic-number rule recognizes. -/
def unknownContent : FileContent := { bytes := [0], text := "", image := none }

/-- A 482×108 RGBA PNG with a fully transparent pixel (the accepted upload
of the spec's web_brand/logo scenario). -/
def logoPngContent : FileContent :=
  { bytes := pngBytes, text := "",
    image := some { width := 482, height := 108, mode := "RGBA",
                    alphaMin := 0, verifyOk := true } }

/-- A 480×108 RGBA PNG (wrong width for web_brand/logo). -/
def logoPng480 : FileContent :=
  { bytes := pngBytes, text := "",
    image := some { width := 480, height := 108, mode := "RGBA",
                    alphaMin := 0, verifyOk := true } }

/-- A 482×108 opaque RGB PNG (no alpha channel). -/
def logoPngOpaque : FileContent :=
  { bytes := pngBytes, text := "",
    image := some { width := 482, height := 108, mode := "RGB",
                    alphaMin := 255, verifyOk := true } }

/-- A 220×160 transparent RGBA PNG, aimed at the web_brand/placeholder
spec, whose dict carries no `transparent_bg` key at all. -/
def transparentPlaceholderPng : FileContent :=
  { bytes := pngBytes, text := "",
    image := some { width := 220, height := 160, mode := "RGBA",
                    alphaMin := 0, verifyOk := true } }

/-- An SVG upload whose text embeds a script element. -/
def evilSvgContent : FileContent :=
  { bytes := [0x3C, 0x73, 0x76, 0x67],
    text := "<svg width=\"10\"><script>x</script></svg>",
    image := none }

/-- A material row occupying the (1, web_brand, logo) slot. -/
def existingLogoMaterial : MaterialRec :=
  { id := 1, project := 1, material_type := "image", platform := "web_brand",
    asset_key := "logo", file_name := "old.png", file_size := 4,
    file_hash := "oldhash", mime_type := "image/png", width := some 482,
    height := some 108, has_transparency := true,
    status := "needs_correction", uploaded_by := 7 }

/-- A database whose (1, web_brand, logo) slot is already occupied. -/
def occupiedSlotState : DBState :=
  { materials := [existingLogoMaterial], versions := [], audit_logs := [],
    next_material_id := 2, next_audit_id := 1 }

/-- A stored version (number 1) of `existingLogoMaterial`. -/
def sampleVersion : VersionRec :=
  { id := 5, material := 1, version_number := 1, file_name := "v1.png",
    file_size := 4, file_hash := "h1", mime_type := "image/png",
    width := some 482, height := some 108, has_transparency := true,
    created_by := 7 }

/-- A database holding `existingLogoMaterial` and its version 1. -/
def rollbackState : DBState :=
  { materials := [existingLogoMaterial], versions := [sampleVersion],
    audit_logs := [], next_material_id := 2, next_audit_id := 1 }

/-- A completed project whose deadline has passed. -/
def completedLateProject : ProjectRec :=
  { id := 1, status := "completed", deadline := some 5, created_by := 1,
    assigned_reviewers := [] }

/-- C1: when `validate_image` raises a typed rejection,
`MaterialService.create_material` performs no mutation at all — the
resulting database state is exactly the input state, so no Material, no
MaterialVersion and no AuditLog row is created — and the typed rejection
reason is surfaced to the caller. -/
theorem create_material_rejected_no_mutation
    (sha256hex : List Nat → String) (resolve : String → String → Option Specs)
    (st : DBState) (project : Nat) (platform asset_key : String)
    (content : FileContent) (file_name : String) (uploaded_by : Nat) (e : VErr)
    (hrej : validateImage resolve content platform asset_key = .error e) :
    create_material sha256hex resolve st project platform asset_key content
        file_name uploaded_by
      = (st, .error (.validation e)) := by
  unfold create_material
  rw [hrej]

/-- C1 witness: a concrete upload of unrecognized bytes under the
web_brand/logo spec is rejected and leaves the empty database untouched. -/
theorem create_material_rejected_no_mutation_witness :
    create_material (fun _ => "h") (getPlatformSpecs []) emptyState 1
        "web_brand" "logo" unknownContent "x.bin" 7
      = (emptyState, .error (.validation (.formatNotAllowed "UNKNOWN" ["PNG"]))) :=
  create_material_rejected_no_mutation _ _ _ _ _ _ _ _ _ _ rfl

/-- C2 (refuting the claim on the code): an accepted upload creates no
MaterialVersion row. On the spec's own web_brand/logo scenario (482×108
transparent PNG, empty database) `create_material` succeeds, creates the
Material row and the audit entry, but the version table stays empty —
no version numbered 1 exists. -/
theorem create_material_creates_no_version :
    (create_material (fun _ => "h") (getPlatformSpecs []) emptyState 1
        "web_brand" "logo" logoPngContent "logo.png" 7).2 = .ok 1 ∧
    (create_material (fun _ => "h") (getPlatformSpecs []) emptyState 1
        "web_brand" "logo" logoPngContent "logo.png" 7).1.versions = [] ∧
    (create_material (fun _ => "h") (getPlatformSpecs []) emptyState 1
        "web_brand" "logo" logoPngContent "logo.png" 7).1.materials.length = 1 ∧
    (create_material (fun _ => "h") (getPlatformSpecs []) emptyState 1
        "web_brand" "logo" logoPngContent "logo.png" 7).1.audit_logs.length = 1 :=
  ⟨rfl, rfl, rfl, rfl⟩

/-- C3 counterexample: an accepted re-upload to an occupied slot does not
mutate the existing Material. The upload passes validation, yet
`create_material` raises the integrity error of the unique
(project, platform, asset_key) constraint and returns the state unchanged:
the slot's row keeps its old `file_hash` (`"oldhash"`, not the new upload's
hash), so no upsert happened. -/
theorem create_material_no_upsert_counterexample :
    isAccepted (validateImage (getPlatformSpecs []) logoPngContent
        "web_brand" "logo") = true ∧
    create_material (fun _ => "newhash") (getPlatformSpecs []) occupiedSlotState
        1 "web_brand" "logo" logoPngContent "new.png" 7
      = (occupiedSlotState, .error .integrityError) ∧
    (occupiedSlotState.materials.map (fun m => m.file_hash)) = ["oldhash"] :=
  ⟨rfl, rfl, rfl⟩

/-- C3 amended: a (validated or not) upload targeting an occupied
(project, platform, asset_key) slot never mutates the database and never
succeeds: `create_material` creates unconditionally, so the unique slot
constraint makes the call fail (with the integrity error when validation
passed), leaving the Material unique per slot with its original row. -/
theorem create_material_occupied_slot_no_upsert
    (sha256hex : List Nat → String) (resolve : String → String → Option Specs)
    (st : DBState) (project : Nat) (platform asset_key : String)
    (content : FileContent) (file_name : String) (uploaded_by : Nat)
    (hocc : slotTaken st project platform asset_key = true) :
    (create_material sha256hex resolve st project platform asset_key content
        file_name uploaded_by).1 = st ∧
    createOk (create_material sha256hex resolve st project platform asset_key
        content file_name uploaded_by).2 = false := by
  unfold create_material
  cases hv : validateImage resolve content platform asset_key with
  | error e => exact ⟨rfl, rfl⟩
  | ok vr =>
    simp only [hocc]
    exact ⟨rfl, rfl⟩

/-- C3 witness: the amended theorem applied to the concrete occupied
database. -/
theorem create_material_occupied_slot_no_upsert_witness :
    (create_material (fun _ => "newhash") (getPlatformSpecs []) occupiedSlotState
        1 "web_brand" "logo" logoPngContent "new.png" 7).1 = occupiedSlotState ∧
    createOk (create_material (fun _ => "newhash") (getPlatformSpecs [])
        occupiedSlotState 1 "web_brand" "logo" logoPngContent "new.png" 7).2
      = false :=
  create_material_occupied_slot_no_upsert _ _ _ _ _ _ _ _ _ rfl

/-- Characterization of an accepted raster validation: acceptance forces
both dimension checks to pass, forces the computed transparency to agree
with the spec's polarity, and reports the decoded dimensions. -/
theorem validateRasterImage_ok_shape (img : RasterImage) (specs : Specs)
    (mime : String) (fs : Nat) (r : ValidationResult)
    (hok : validateRasterImage (some img) specs mime fs = .ok r) :
    (natTruthy specs.width && img.width != specs.width.getD 0) = false ∧
    (natTruthy specs.height && img.height != specs.height.getD 0) = false ∧
    r.has_transparency = checkTransparency img ∧
    checkTransparency img = boolTruthy specs.transparent_bg ∧
    r.width = some img.width ∧ r.height = some img.height := by
  simp only [validateRasterImage] at hok
  cases hcw : (natTruthy specs.width && img.width != specs.width.getD 0) with
  | true => simp [hcw] at hok
  | false =>
    cases hch : (natTruthy specs.height && img.height != specs.height.getD 0) with
    | true => simp [hcw, hch] at hok
    | false =>
      cases hb : boolTruthy specs.transparent_bg <;>
        cases hc : checkTransparency img <;>
          simp [hcw, hch, hb, hc] at hok <;>
            cases hverify : img.verifyOk <;>
              simp [hverify] at hok <;>
                simp [← hok, hb, hc]

/-- C4 counterexample: the tri-state reading is false. The
web_brand/placeholder spec carries no `transparent_bg` key (transparency
unspecified), yet a transparent 220×160 RGBA PNG under it is rejected
`TransparencyForbidden` instead of being accepted. -/
theorem transparency_unspecified_rejects_counterexample :
    platformSpecsLookup "web_brand" "placeholder"
      = some { width := some 220, height := some 160, formats := ["PNG"],
               max_size_mb := some 10 } ∧
    validateImage (getPlatformSpecs []) transparentPlaceholderPng
        "web_brand" "placeholder"
      = .error .transparencyForbidden :=
  ⟨rfl, rfl⟩

/-- C4 amended: the transparency polarity check is symmetric but two-state,
not tri-state. For both the raster and the SVG validator (once the checks
before transparency pass): a truthy `transparent_bg` rejects an opaque
asset as `TransparencyRequired`; a falsy or absent `transparent_bg`
rejects a transparent asset as `TransparencyForbidden` — an unspecified
transparency behaves as forbidden, there is no accept-both state — and
acceptance forces the asset's transparency to equal the spec's polarity. -/
theorem transparency_polarity_two_state :
    (∀ (img : RasterImage) (specs : Specs) (mime : String) (fs : Nat),
      (natTruthy specs.width && img.width != specs.width.getD 0) = false →
      (natTruthy specs.height && img.height != specs.height.getD 0) = false →
      (boolTruthy specs.transparent_bg = true → checkTransparency img = false →
        validateRasterImage (some img) specs mime fs = .error .transparencyRequired) ∧
      (boolTruthy specs.transparent_bg = false → checkTransparency img = true →
        validateRasterImage (some img) specs mime fs = .error .transparencyForbidden) ∧
      (∀ r, validateRasterImage (some img) specs mime fs = .ok r →
        r.has_transparency = boolTruthy specs.transparent_bg)) ∧
    (∀ (text : String) (specs : Specs) (mime : String) (fs : Nat),
      (!(strContains "<svg" (strLower text) && strContains "</svg>" (strLower text))) = false →
      (!strContains "viewbox" (strLower text) && !strContains "width" (strLower text)) = false →
      (boolTruthy specs.transparent_bg = true → svgHasTransparency text = false →
        validateSvg text specs mime fs = .error .transparencyRequired) ∧
      (boolTruthy specs.transparent_bg = false → svgHasTransparency text = true →
        validateSvg text specs mime fs = .error .transparencyForbidden) ∧
      (∀ r, validateSvg text specs mime fs = .ok r →
        r.has_transparency = boolTruthy specs.transparent_bg)) := by
  constructor
  · intro img specs mime fs hw hh
    refine ⟨?_, ?_, ?_⟩
    · intro hb hc
      simp [validateRasterImage, hw, hh, hb, hc]
    · intro hb hc
      simp [validateRasterImage, hw, hh, hb, hc]
    · intro r hok
      obtain ⟨-, -, h1, h2, -, -⟩ := validateRasterImage_ok_shape img specs mime fs r hok
      rw [h1, h2]
  · intro text specs mime fs hv hd
    refine ⟨?_, ?_, ?_⟩
    · intro hb hc
      simp [validateSvg, hv, hd, hb, hc]
    · intro hb hc
      simp [validateSvg, hv, hd, hb, hc]
    · intro r hok
      simp only [validateSvg] at hok
      cases hv' : (!(strContains "<svg" (strLower text) && strContains "</svg>" (strLower text))) with
      | true => simp [hv'] at hok
      | false =>
        cases hd' : (!strContains "viewbox" (strLower text) && !strContains "width" (strLower text)) with
        | true => simp [hv', hd'] at hok
        | false =>
          cases hb : boolTruthy specs.transparent_bg <;>
            cases hc : svgHasTransparency text <;>
              simp [hv', hd', hb, hc] at hok <;>
                cases hfind : problematicElements.find? (fun e => strContains e (strLower text)) <;>
                  simp [hfind] at hok <;>
                    simp [← hok, hb, hc]

/-- C4 witness: the amended theorem at concrete inputs — an opaque RGB
image under a transparency-requiring spec is rejected `TransparencyRequired`,
and an SVG with a `fill="none"` transparency marker under a spec with no
`transparent_bg` key is rejected `TransparencyForbidden`. -/
theorem transparency_polarity_two_state_witness :
    validateRasterImage
        (some { width := 10, height := 10, mode := "RGB", alphaMin := 255,
                verifyOk := true })
        { formats := ["PNG"], transparent_bg := some true } "image/png" 4
      = .error .transparencyRequired ∧
    validateSvg "<svg width=\"5\" fill=\"none\"></svg>" { formats := ["SVG"] }
        "image/svg+xml" 4
      = .error .transparencyForbidden :=
  ⟨(transparency_polarity_two_state.1
      { width := 10, height := 10, mode := "RGB", alphaMin := 255, verifyOk := true }
      { formats := ["PNG"], transparent_bg := some true } "image/png" 4
      rfl rfl).1 rfl rfl,
   (transparency_polarity_two_state.2 "<svg width=\"5\" fill=\"none\"></svg>"
      { formats := ["SVG"] } "image/svg+xml" 4 rfl rfl).2.1 rfl rfl⟩

/-- C5: the raster dimension check is exact and per-axis. Acceptance under
a spec with a truthy exact width (resp. height) forces the decoded
dimension to equal it and reports it back; a width mismatch is rejected
with an error naming actual and expected width; a height mismatch (with
the width check passing) is rejected naming actual and expected height;
and the concrete 480×108 upload under the web_brand/logo spec (482×108)
is rejected citing expected 482, actual 480. -/
theorem raster_dimension_exactness :
    (∀ (img : RasterImage) (specs : Specs) (mime : String) (fs : Nat)
        (r : ValidationResult),
      validateRasterImage (some img) specs mime fs = .ok r →
      (natTruthy specs.width = true →
        img.width = specs.width.getD 0 ∧ r.width = some (specs.width.getD 0)) ∧
      (natTruthy specs.height = true →
        img.height = specs.height.getD 0 ∧ r.height = some (specs.height.getD 0))) ∧
    (∀ (img : RasterImage) (specs : Specs) (mime : String) (fs : Nat),
      natTruthy specs.width = true → img.width ≠ specs.width.getD 0 →
      validateRasterImage (some img) specs mime fs
        = .error (.widthMismatch img.width (specs.width.getD 0))) ∧
    (∀ (img : RasterImage) (specs : Specs) (mime : String) (fs : Nat),
      (natTruthy specs.width && img.width != specs.width.getD 0) = false →
      natTruthy specs.height = true → img.height ≠ specs.height.getD 0 →
      validateRasterImage (some img) specs mime fs
        = .error (.heightMismatch img.height (specs.height.getD 0))) ∧
    validateImage (getPlatformSpecs []) logoPng480 "web_brand" "logo"
      = .error (.widthMismatch 480 482) := by
  refine ⟨?_, ?_, ?_, rfl⟩
  · intro img specs mime fs r hok
    obtain ⟨hw, hh, -, -, hrw, hrh⟩ :=
      validateRasterImage_ok_shape img specs mime fs r hok
    constructor
    · intro ht
      rw [ht, Bool.true_and, bne_eq_false_iff_eq] at hw
      exact ⟨hw, by rw [hrw, hw]⟩
    · intro ht
      rw [ht, Bool.true_and, bne_eq_false_iff_eq] at hh
      exact ⟨hh, by rw [hrh, hh]⟩
  · intro img specs mime fs ht hne
    have hcond : (natTruthy specs.width && img.width != specs.width.getD 0) = true := by
      rw [ht, Bool.true_and, bne_iff_ne]
      exact hne
    simp [validateRasterImage, hcond]
  · intro img specs mime fs hw ht hne
    have hcond : (natTruthy specs.height && img.height != specs.height.getD 0) = true := by
      rw [ht, Bool.true_and, bne_iff_ne]
      exact hne
    simp [validateRasterImage, hw, hcond]

/-- C5 witness: the acceptance direction applied to the accepted 482×108
upload of the web_brand/logo scenario forces the decoded width to equal
the spec's exact width. -/
theorem raster_dimension_exactness_witness :
    ({ width := 482, height := 108, mode := "RGBA", alphaMin := 0,
       verifyOk := true } : RasterImage).width
      = ({ width := some 482, height := some 108, formats := ["PNG"],
           transparent_bg := some true, max_size_mb := some 10 } : Specs).width.getD 0 :=
  ((raster_dimension_exactness.1
    { width := 482, height := 108, mode := "RGBA", alphaMin := 0, verifyOk := true }
    { width := some 482, height := some 108, formats := ["PNG"],
      transparent_bg := some true, max_size_mb := some 10 }
    "image/png" 4
    { valid := true, format := "PNG", mime_type := "image/png", file_size := 4,
      width := some 482, height := some 108, has_transparency := true,
      warnings := [] }
    rfl).1 rfl).1

/-- Helper: an SVG text containing any of the active-content markers is
never accepted by `_validate_svg`, whatever the spec says. -/
theorem validateSvg_activeContent_rejected (text : String) (specs : Specs)
    (mime : String) (fs : Nat)
    (h : ∃ e ∈ problematicElements, strContains e (strLower text) = true) :
    isAccepted (validateSvg text specs mime fs) = false := by
  simp only [validateSvg]
  split_ifs with h1 h2 h3 h4
  · rfl
  · rfl
  · rfl
  · rfl
  · cases hfind : problematicElements.find? (fun e => strContains e (strLower text)) with
    | some e => simp [hfind, isAccepted]
    | none =>
      exfalso
      rw [List.find?_eq_none] at hfind
      obtain ⟨e, he, hc⟩ := h
      exact hfind e he hc

/-- C6: an upload whose byte content is detected as SVG and whose decoded
text contains an active-content marker (script, iframe, object or embed,
matched on the lowered text) is never accepted by `validate_image`,
whatever specification the resolution environment returns — the
unsafe-content rejection cannot be bypassed by spec configuration. -/
theorem svg_activeContent_never_accepted
    (resolve : String → String → Option Specs) (content : FileContent)
    (platform asset_key elem : String)
    (helem : elem ∈ problematicElements)
    (hsub : strContains elem (strLower content.text) = true)
    (hsvg : extractFormatFromMime (getMimeType content.bytes) = "SVG") :
    isAccepted (validateImage resolve content platform asset_key) = false := by
  unfold validateImage
  cases hres : resolve platform asset_key with
  | none => rfl
  | some specs =>
    simp only [hsvg]
    split_ifs with h1 h2 h3
    · rfl
    · rfl
    · exact validateSvg_activeContent_rejected _ _ _ _ ⟨elem, helem, hsub⟩
    · exact absurd rfl h3

/-- C6 witness: a concrete SVG upload embedding a script element is not
accepted under the compiled ios_tvos_app_store/logo_top spec. -/
theorem svg_activeContent_never_accepted_witness :
    isAccepted (validateImage (getPlatformSpecs []) evilSvgContent
      "ios_tvos_app_store" "logo_top") = false :=
  svg_activeContent_never_accepted _ _ _ _ "<script" (by decide) rfl rfl

/-- C7: the status-change authorization of
`MaterialViewSet._can_change_status` grants exactly: any admin; a reviewer
targeting `approved` or `needs_correction` who is among the material's
project's assigned reviewers; a client targeting `pending` on a material
they uploaded themselves. Every other combination is denied. -/
theorem can_change_status_policy (assigned : List Nat) (material : MaterialRec)
    (new_status : String) (user : UserRec) :
    canChangeStatus assigned material new_status user = true ↔
      (user.role = "admin" ∨
       (user.role = "reviewer" ∧
         (new_status = "approved" ∨ new_status = "needs_correction") ∧
         user.id ∈ assigned) ∨
       (user.role = "client" ∧ new_status = "pending" ∧
         material.uploaded_by = user.id)) := by
  unfold canChangeStatus
  split_ifs with h1 h2 h3 <;>
    simp_all [List.contains, List.elem_iff, Bool.and_eq_true, Bool.or_eq_true,
      beq_iff_eq]

/-- Characterization of a successful rollback call: when the version is
found for the material, the result is the state with the material row
overwritten from the version (status forced to `pending`), the version
table untouched, and one audit entry appended. -/
theorem rollback_found (st : DBState) (material : MaterialRec)
    (version : VersionRec) (version_id actor : Nat)
    (hfind : st.versions.find?
        (fun v => v.id == version_id && v.material == material.id)
      = some version) :
    rollback st material version_id actor
      = ({ materials := st.materials.map (fun m =>
             if m.id == material.id then
               { material with
                 file_name := version.file_name, file_size := version.file_size,
                 file_hash := version.file_hash, mime_type := version.mime_type,
                 width := version.width, height := version.height,
                 has_transparency := version.has_transparency,
                 storage_url := version.storage_url,
                 status := "pending" }
             else m),
           versions := st.versions,
           audit_logs := st.audit_logs ++
             [{ id := st.next_audit_id, action := "update", actor := actor,
                entity_type := "Material", entity_id := material.id,
                payload := some (.rollback version_id version.version_number) }],
           next_material_id := st.next_material_id,
           next_audit_id := st.next_audit_id + 1 }, .ok ()) := by
  unfold rollback
  rw [hfind]
  rfl

/-- C8: rollback to a version belonging to the material copies that
version's file metadata fields onto the Material row and forces its status
to `pending` while keeping its identity columns; it assigns no new version
number and deletes or renumbers no version (the version table is
untouched); and it is idempotent in content but not in audit trail:
rolling back to the same version twice (the second call on the refetched
row) yields the same Material field values both times while appending two
distinct audit entries, each tagged with the version number. -/
theorem rollback_content_idempotent_audit_appending
    (st : DBState) (material : MaterialRec) (version : VersionRec)
    (version_id actor : Nat)
    (hfind : st.versions.find?
        (fun v => v.id == version_id && v.material == material.id)
      = some version) :
    ∃ material1 e1 e2,
      (rollback st material version_id actor).1.materials
        = st.materials.map (fun m => if m.id == material.id then material1 else m) ∧
      material1.file_name = version.file_name ∧
      material1.file_size = version.file_size ∧
      material1.file_hash = version.file_hash ∧
      material1.mime_type = version.mime_type ∧
      material1.width = version.width ∧
      material1.height = version.height ∧
      material1.has_transparency = version.has_transparency ∧
      material1.storage_url = version.storage_url ∧
      material1.status = "pending" ∧
      material1.id = material.id ∧
      material1.project = material.project ∧
      material1.comments = material.comments ∧
      material1.uploaded_by = material.uploaded_by ∧
      (rollback st material version_id actor).1.versions = st.versions ∧
      (rollback st material version_id actor).1.audit_logs
        = st.audit_logs ++ [e1] ∧
      (rollback (rollback st material version_id actor).1 material1 version_id
          actor).1.materials
        = (rollback st material version_id actor).1.materials ∧
      (rollback (rollback st material version_id actor).1 material1 version_id
          actor).1.versions = st.versions ∧
      (rollback (rollback st material version_id actor).1 material1 version_id
          actor).1.audit_logs
        = st.audit_logs ++ [e1, e2] ∧
      e1 ≠ e2 ∧
      e1.payload = some (.rollback version_id version.version_number) ∧
      e2.payload = some (.rollback version_id version.version_number) := by
  have hr1 := rollback_found st material version version_id actor hfind
  have hfind2 : (rollback st material version_id actor).1.versions.find?
      (fun v => v.id == version_id &&
        v.material == ({ material with
          file_name := version.file_name, file_size := version.file_size,
          file_hash := version.file_hash, mime_type := version.mime_type,
          width := version.width, height := version.height,
          has_transparency := version.has_transparency,
          storage_url := version.storage_url,
          status := "pending" } : MaterialRec).id)
      = some version := by
    rw [hr1]
    exact hfind
  have hr2 := rollback_found (rollback st material version_id actor).1
    { material with
      file_name := version.file_name, file_size := version.file_size,
      file_hash := version.file_hash, mime_type := version.mime_type,
      width := version.width, height := version.height,
      has_transparency := version.has_transparency,
      storage_url := version.storage_url,
      status := "pending" } version version_id actor hfind2
  refine ⟨{ material with
      file_name := version.file_name, file_size := version.file_size,
      file_hash := version.file_hash, mime_type := version.mime_type,
      width := version.width, height := version.height,
      has_transparency := version.has_transparency,
      storage_url := version.storage_url,
      status := "pending" },
    { id := st.next_audit_id, action := "update", actor := actor,
      entity_type := "Material", entity_id := material.id,
      payload := some (.rollback version_id version.version_number) },
    { id := st.next_audit_id + 1, action := "update", actor := actor,
      entity_type := "Material", entity_id := material.id,
      payload := some (.rollback version_id version.version_number) },
    ?_, rfl, rfl, rfl, rfl, rfl, rfl, rfl, rfl, rfl, rfl, rfl, rfl, rfl,
    ?_, ?_, ?_, ?_, ?_, ?_, rfl, rfl⟩
  · rw [hr1]
  · rw [hr1]
  · rw [hr1]
  · -- the second rollback maps every already-updated row to itself
    rw [hr2, hr1]
    show (st.materials.map (fun m =>
        if m.id == material.id then
          { material with
            file_name := version.file_name, file_size := version.file_size,
            file_hash := version.file_hash, mime_type := version.mime_type,
            width := version.width, height := version.height,
            has_transparency := version.has_transparency,
            storage_url := version.storage_url,
            status := "pending" }
        else m)).map (fun m =>
        if m.id == material.id then
          { material with
            file_name := version.file_name, file_size := version.file_size,
            file_hash := version.file_hash, mime_type := version.mime_type,
            width := version.width, height := version.height,
            has_transparency := version.has_transparency,
            storage_url := version.storage_url,
            status := "pending" }
        else m)
      = st.materials.map (fun m =>
        if m.id == material.id then
          { material with
            file_name := version.file_name, file_size := version.file_size,
            file_hash := version.file_hash, mime_type := version.mime_type,
            width := version.width, height := version.height,
            has_transparency := version.has_transparency,
            storage_url := version.storage_url,
            status := "pending" }
        else m)
    rw [List.map_map]
    refine List.map_congr_left (fun m _ => ?_)
    by_cases h : m.id = material.id
    · simp [h]
    · simp [h]
  · rw [hr2, hr1]
  · rw [hr2, hr1]
    simp [List.append_assoc]
  · intro h
    have hid := congrArg AuditRec.id h
    simp at hid

/-- C7 witness: the policy characterization applied to a concrete assigned
reviewer approving a material. -/
theorem can_change_status_policy_witness :
    canChangeStatus [3] existingLogoMaterial "approved" { id := 3, role := "reviewer" }
      = true :=
  (can_change_status_policy [3] existingLogoMaterial "approved"
    { id := 3, role := "reviewer" }).mpr
    (Or.inr (Or.inl ⟨rfl, Or.inl rfl, by decide⟩))

/-- C8 witness: the rollback theorem applied to a concrete database holding
one material and its version 1 (here extracting the untouched-versions
component). -/
theorem rollback_content_idempotent_audit_appending_witness :
    (rollback rollbackState existingLogoMaterial 5 9).1.versions
      = rollbackState.versions := by
  obtain ⟨m1, e1, e2, -, -, -, -, -, -, -, -, -, -, -, -, -, -, hv, -⟩ :=
    rollback_content_idempotent_audit_appending rollbackState
      existingLogoMaterial sampleVersion 5 9 rfl
  exact hv

/-- C10: `MaterialService.update_material_status` leaves the version table
untouched and replaces only the targeted material row, in which only the
status — and the comments, exactly when the comments argument is non-empty
— changes: with empty comments the comments field keeps its prior value,
and every other domain column keeps its value; rows of other materials are
untouched. -/
theorem update_material_status_frame (st : DBState) (material : MaterialRec)
    (new_status : String) (user : Nat) (comments : String)
    (hmem : material ∈ st.materials) :
    (update_material_status st material new_status user comments).versions
      = st.versions ∧
    ∃ m', m' ∈ (update_material_status st material new_status user comments).materials ∧
      m'.status = new_status ∧
      (comments = "" → m'.comments = material.comments) ∧
      (comments ≠ "" → m'.comments = some comments) ∧
      m'.id = material.id ∧ m'.project = material.project ∧
      m'.material_type = material.material_type ∧ m'.platform = material.platform ∧
      m'.asset_key = material.asset_key ∧ m'.file_name = material.file_name ∧
      m'.file_size = material.file_size ∧ m'.file_hash = material.file_hash ∧
      m'.mime_type = material.mime_type ∧ m'.width = material.width ∧
      m'.height = material.height ∧
      m'.has_transparency = material.has_transparency ∧
      m'.storage_url = material.storage_url ∧
      m'.uploaded_by = material.uploaded_by ∧
      ∀ m0 ∈ st.materials, m0.id ≠ material.id →
        m0 ∈ (update_material_status st material new_status user comments).materials := by
  refine ⟨rfl,
    { material with
        status := new_status,
        comments := if comments != "" then some comments else material.comments },
    ?_, rfl, ?_, ?_, rfl, rfl, rfl, rfl, rfl, rfl, rfl, rfl, rfl, rfl, rfl,
    rfl, rfl, rfl, ?_⟩
  · exact List.mem_map.mpr ⟨material, hmem, by simp⟩
  · intro hc
    simp [hc]
  · intro hc
    simp [hc]
  · intro m0 hm0 hne
    refine List.mem_map.mpr ⟨m0, hm0, ?_⟩
    simp [hne]

/-- C10 witness: the frame theorem applied to a concrete one-material
database with empty comments (here extracting the untouched-versions
component). -/
theorem update_material_status_frame_witness :
    (update_material_status occupiedSlotState existingLogoMaterial "approved"
        9 "").versions
      = occupiedSlotState.versions :=
  (update_material_status_frame occupiedSlotState existingLogoMaterial
    "approved" 9 "" (by decide)).1

/-- C9 (refuting the claim on the code): `Project.is_overdue` ignores the
project status — a Completed project with a past deadline is reported
overdue — while the repository's own dashboard query
(`DashboardStatsView.get`) applies the status filter of the claim and does
not count that same project. -/
theorem is_overdue_ignores_status :
    is_overdue 10 completedLateProject = true ∧
    overdueProjectsCount 10 [completedLateProject] = 0 :=
  ⟨rfl, rfl⟩

end AppBack
